import Mathlib

/-!
Shallow embedding of src/converter.py: the incremental PDF-sitemap
synchronization pipeline (manifest diffing, durable per-item state,
retry policy, item pipeline, cleanup saga, run orchestration).

Python dicts are modelled as association lists with first-match lookup
(Python dict keys are unique, so first-match agrees with dict semantics);
timestamps are integers counting seconds; exceptions are modelled by
Option / Except results or by explicit outcome parameters for the
external collaborators (network, FTP, conversion engine, chatbot API).
-/

namespace Converter

/-! ### Python dict operations over association lists -/

def dictGet {α : Type} (m : List (String × α)) (k : String) : Option α :=
  match m with
  | [] => none
  | p :: rest => if p.1 = k then some p.2 else dictGet rest k

def dictKeys {α : Type} (m : List (String × α)) : List String :=
  m.map Prod.fst

/-- Python d[k] = v : replaces any binding of k. -/
def dictInsert {α : Type} (m : List (String × α)) (k : String) (v : α) :
    List (String × α) :=
  (k, v) :: m.filter fun p => p.1 != k

/-- Python del d[k] (tolerant: no-op when absent). -/
def dictErase {α : Type} (m : List (String × α)) (k : String) :
    List (String × α) :=
  m.filter fun p => p.1 != k

/-- Python \x7b**a, **b\x7d : merged dict, values of b winning on shared keys. -/
def dictMerge (a b : List (String × String)) : List (String × String) :=
  (a.filter fun p => (dictGet b p.1).isNone) ++ b

/-! ### Manifest (sitemap) model and the differ (compare_sitemaps) -/

/-- A parsed sitemap: mapping from PDF url (locator) to lastmod (revision). -/
abbrev Manifest := List (String × String)

/-- compare_sitemaps (src/converter.py lines 610-618): added / changed /
removed, by exact string comparison of the lastmod values. -/
def compare_sitemaps (old_pdfs new_pdfs : Manifest) :
    Manifest × Manifest × Manifest :=
  let added := new_pdfs.filter fun p => (dictGet old_pdfs p.1).isNone
  let changed := new_pdfs.filter fun p =>
    match dictGet old_pdfs p.1 with
    | some d => decide (d ≠ p.2)
    | none => false
  let removed := old_pdfs.filter fun p => (dictGet new_pdfs p.1).isNone
  (added, changed, removed)

/-! ### State Store records (processed_pdfs.json / failed_pdfs.json)

The filename field stored by the Python code (derived from the url by
URL-decoding and a regex) is carried as an uninterpreted string: no claim
depends on its value, and the records below keep the fields the control
flow reads. -/

structure ProcessedRec where
  date : String
  processed_at : Int
deriving DecidableEq

/-- The failed_at JSON field as read back by should_retry_failed_pdf:
it can be missing (KeyError), a non-ISO string (ValueError from
datetime.fromisoformat), or a parsed timestamp. -/
inductive FailedAtField : Type
  | missing : FailedAtField
  | malformed : FailedAtField
  | valid : Int → FailedAtField
deriving DecidableEq

structure FailedRec where
  error : String
  failed_at : FailedAtField
  retry_count : Nat
deriving DecidableEq

/-- The two bookkeeping dicts, as loaded from disk during one run. -/
structure Store where
  processed : List (String × ProcessedRec)
  failed : List (String × FailedRec)
deriving DecidableEq

def emptyStore : Store := { processed := [], failed := [] }

/-- save_processed_pdf (lines 424-433): upsert a Processed record. -/
def save_processed_pdf (s : Store) (url : String) (date : String) (now : Int) :
    Store :=
  { s with processed :=
      dictInsert s.processed url { date := date, processed_at := now } }

/-- remove_processed_pdf (lines 436-443): returns whether the url was
present, and the updated store. -/
def remove_processed_pdf (s : Store) (url : String) : Bool × Store :=
  match dictGet s.processed url with
  | some _ => (true, { s with processed := dictErase s.processed url })
  | none => (false, s)

/-- is_pdf_already_processed (lines 446-451). -/
def is_pdf_already_processed (s : Store) (url current_date : String) : Bool :=
  match dictGet s.processed url with
  | some r => r.date == current_date
  | none => false

/-- save_failed_pdf (lines 472-483): upsert a Failed record, incrementing
retry_count from the prior record (0 when absent); the error message is
truncated to 500 characters; failed_at is set to the current time. -/
def save_failed_pdf (s : Store) (url : String) (error_msg : String)
    (now : Int) : Store :=
  let rc := (match dictGet s.failed url with
    | some r => r.retry_count
    | none => 0) + 1
  let newRec : FailedRec :=
    { error := error_msg.take 500, failed_at := .valid now, retry_count := rc }
  { s with failed := dictInsert s.failed url newRec }

/-- remove_from_failed (lines 486-492). -/
def remove_from_failed (s : Store) (url : String) : Store :=
  { s with failed := dictErase s.failed url }

/-! ### Retry Policy (should_retry_failed_pdf, lines 495-514) -/

def default_max_retries : Nat := 3

def default_retry_after_days : Int := 7

def secondsPerDay : Int := 86400

/-- should_retry_failed_pdf. Control flow of the source, in order:
no Failed record: True; retry_count >= max_retries: False (the cooldown
is not consulted on this branch); then the try block: a parsed failed_at
older than the cooldown gives True, a missing or malformed failed_at is
caught (KeyError / ValueError) and gives True; otherwise the trailing
return False is reached. timedelta(days = d) is d * 86400 seconds and
the comparison is strict. -/
def should_retry_failed_pdf (failed : List (String × FailedRec))
    (url : String) (now : Int) (max_retries : Nat) (retry_after_days : Int) :
    Bool :=
  match dictGet failed url with
  | none => true
  | some r =>
    if r.retry_count ≥ max_retries then
      false
    else
      match r.failed_at with
      | .valid t => decide (now - t > retry_after_days * secondsPerDay)
      | .missing => true
      | .malformed => true

/-! ### Loading the bookkeeping files (lines 406-415 and 454-463)

The backing file can be absent, present with valid JSON, present with
invalid JSON (json.load raises json.JSONDecodeError, which the source
catches), or present but unreadable (open raises OSError, which the
except clause of the source does not catch, so it propagates). An
escaping exception is an Except.error value. -/

inductive BackingFile (α : Type) : Type
  | absent : BackingFile α
  | unreadable : BackingFile α
  | corruptJson : BackingFile α
  | good : α → BackingFile α
deriving DecidableEq

/-- load_processed_pdfs (lines 406-415). -/
def load_processed_pdfs (f : BackingFile (List (String × ProcessedRec))) :
    Except String (List (String × ProcessedRec)) :=
  match f with
  | .absent => .ok []
  | .good m => .ok m
  | .corruptJson => .ok []
  | .unreadable => .error "OSError"

/-- load_failed_pdfs (lines 454-463). -/
def load_failed_pdfs (f : BackingFile (List (String × FailedRec))) :
    Except String (List (String × FailedRec)) :=
  match f with
  | .absent => .ok []
  | .good m => .ok m
  | .corruptJson => .ok []
  | .unreadable => .error "OSError"

/-! ### Item Pipeline (download_pdf, convert_pdf_to_markdown, process_pdf)

The external collaborators are injected as an outcome record: what the
network returns for the download, whether the conversion engine yields
text (and how long its stripped form is), whether the FTP upload and the
chatbot upsert succeed. The local filesystem is a list of paths. -/

/-- One download attempt as observed by download_pdf (lines 735-770):
a non-200 status, a timeout or a network error raise before the scratch
file is opened; a 200 body is streamed to the scratch file first, then
the size floor (100 bytes) is checked, raising when too small. -/
inductive DownloadOutcome : Type
  | httpError : Nat → DownloadOutcome
  | timeout : DownloadOutcome
  | networkError : DownloadOutcome
  | body : Nat → DownloadOutcome
deriving DecidableEq

/-- Injected outcomes of the external steps for one item. -/
structure ItemEnv where
  memory_ok : Bool
  download : DownloadOutcome
  conversion_text_len : Option Nat
  ftp_upload_ok : Bool
  chatbot_ok : Bool
deriving DecidableEq

/-- download_pdf (lines 735-770) acting on the filesystem: returns the
new filesystem and some path on normal return, none when it raises.
On a 200 response the scratch file exists on disk before the size floor
check, so a too-small body leaves the file behind while raising. -/
def download_pdf (fs : List String) (pdfPath : String)
    (o : DownloadOutcome) : List String × Option String :=
  match o with
  | .httpError _ => (fs, none)
  | .timeout => (fs, none)
  | .networkError => (fs, none)
  | .body size =>
    let fs1 := pdfPath :: fs
    if size < 100 then (fs1, none) else (fs1, some pdfPath)

/-- convert_pdf_to_markdown (lines 798-833), collapsed to whether it
returns normally: it raises when the engine itself raises or the
stripped text is shorter than 50 characters; then it writes the
markdown file; a failed FTP upload is only logged (upload FTP echoue,
mais on continue) and does not raise; process_chatbot_source raises on
failure. -/
def convert_pdf_to_markdown (e : ItemEnv) : Bool :=
  match e.conversion_text_len with
  | none => false
  | some n =>
    if n < 50 then false
    else
      e.chatbot_ok

/-- Result of process_pdf: its boolean return value, the bookkeeping
store after the run, and the filesystem after the finally block. -/
structure ItemResult where
  success : Bool
  store : Store
  fs : List String
deriving DecidableEq

/-- process_pdf (lines 836-879). The try block: memory check, download
(pdf_path stays None when download_pdf raises), conversion + publishing,
then save_processed_pdf and remove_from_failed; the except block calls
save_failed_pdf; the finally block removes the scratch file only when
pdf_path was assigned (and the file exists). -/
def process_pdf (s : Store) (fs : List String) (pdfPath : String)
    (url date : String) (now : Int) (e : ItemEnv) : ItemResult :=
  if !e.memory_ok then
    { success := false,
      store := save_failed_pdf s url "Memoire insuffisante" now, fs := fs }
  else
    match download_pdf fs pdfPath e.download with
    | (fs1, none) =>
      { success := false,
        store := save_failed_pdf s url "download error" now, fs := fs1 }
    | (fs1, some p) =>
      let fs2 := fs1.filter fun q => q != p
      if convert_pdf_to_markdown e then
        { success := true,
          store := remove_from_failed (save_processed_pdf s url date now) url,
          fs := fs2 }
      else
        { success := false,
          store := save_failed_pdf s url "conversion error" now, fs := fs2 }

/-- The condition under which download_pdf returns normally: a 200
body whose written size passes the 100-byte floor (lines 747-763). -/
def download_returns : DownloadOutcome → Bool
  | .body n => !decide (n < 100)
  | _ => false

/-- The condition under which the conversion step of
convert_pdf_to_markdown does not raise: the engine produced text whose
stripped length passes the 50-character floor (lines 804-810). -/
def conversion_ok : Option Nat → Bool
  | some n => !decide (n < 50)
  | none => false

/-! ### Cleanup Saga (handle_removed_pdfs, lines 625-728) -/

/-- One chatbot source as returned by get_sources. -/
structure Source where
  id : String
  url : String
deriving DecidableEq

/-- Python substring test: needle in hay, over character lists. -/
def listContainsSub (needle : List Char) : List Char → Bool
  | [] => needle.isEmpty
  | c :: t => needle.isPrefixOf (c :: t) || listContainsSub needle t

/-- find_source_by_keyword (lines 292-296): first source whose url
contains the keyword as a substring; None on an empty or missing list. -/
def find_source_by_keyword (sources : List Source) (keyword : String) :
    Option Source :=
  sources.find? fun s => listContainsSub keyword.data s.url.data

/-- The FTP server as seen by delete_from_ftp (lines 230-255): whether
connect + login succeed, the file listing, and whether a delete call
succeeds. The three in-function retries see the same deterministic
outcome, so they collapse. -/
structure FtpEnv where
  reachable : Bool
  files : List String
  delete_ok : Bool
deriving DecidableEq

/-- delete_from_ftp (lines 230-255): when connected, a filename absent
from nlst() is already-absent success; otherwise the delete is issued. -/
def delete_from_ftp (env : FtpEnv) (filename : String) : Bool :=
  if env.reachable then
    if env.files.contains filename then env.delete_ok else true
  else false

/-- The cleanup dict recorded for one removed PDF (lines 655-660). -/
structure CleanupResult where
  chatbot_source : Bool
  local_file : Bool
  ftp_file : Bool
  tracking : Bool
deriving DecidableEq

/-- External state seen by the saga for one removed url. -/
structure SagaEnv where
  sources : Option (List Source)
  delete_source_ok : Bool
  local_md_exists : Bool
  local_remove_ok : Bool
  ftp : FtpEnv
deriving DecidableEq

/-- The per-url body of handle_removed_pdfs (lines 649-711). Step 1 runs
under the Python truthiness test if sources: which is false both for
None (API failure) and for an empty list, leaving chatbot_source at its
initialized False; inside it, an absent source is success. Step 2: an
absent local file is success, os.remove failures are caught. Step 3:
delete_from_ftp. Step 4: remove_processed_pdf, with tracking set True in
both branches. Step 5: the url is also deleted from the failed dict when
present. The function returns the recorded cleanup dict and the store
after steps 4 and 5 (save_removed_pdf appends the audit record and is
claim-irrelevant here). -/
def cleanup_removed_pdf (env : SagaEnv) (s : Store)
    (url clean_filename md_filename : String) : CleanupResult × Store :=
  let chatbot_ok : Bool :=
    match env.sources with
    | some ss =>
      if !ss.isEmpty then
        match find_source_by_keyword ss clean_filename with
        | some _ => env.delete_source_ok
        | none => true
      else false
    | none => false
  let local_ok : Bool :=
    if env.local_md_exists then env.local_remove_ok else true
  let ftp_ok : Bool := delete_from_ftp env.ftp md_filename
  let s1 := (remove_processed_pdf s url).2
  let s2 :=
    match dictGet s1.failed url with
    | some _ => { s1 with failed := dictErase s1.failed url }
    | none => s1
  ({ chatbot_source := chatbot_ok, local_file := local_ok,
     ftp_file := ftp_ok, tracking := true }, s2)

/-! ### Run Orchestrator tail (main, lines 926-1006)

The part of main after compare_sitemaps, as an event trace: handle the
removed PDFs, filter added + changed through is_pdf_already_processed
and should_retry_failed_pdf, run process_pdf over the filtered items
(process_pdf catches per-item exceptions and returns a bool, modelled by
the outcome function), then unconditionally save_sitemap, upload the
logs and suspend. -/

inductive RunEvent : Type
  | handled_removed : RunEvent
  | processed_item : String → Bool → RunEvent
  | saved_sitemap : RunEvent
  | uploaded_logs : RunEvent
  | suspended : RunEvent
deriving DecidableEq

/-- The to_process filter of main (lines 938-950). -/
def build_to_process (s : Store) (added changed : Manifest) (now : Int) :
    Manifest :=
  (dictMerge added changed).filter fun p =>
    !(is_pdf_already_processed s p.1 p.2) &&
      should_retry_failed_pdf s.failed p.1 now default_max_retries
        default_retry_after_days

/-- main after the diff (lines 926-1006): the emitted event trace. -/
def main_after_diff (s : Store) (added changed : Manifest) (now : Int)
    (outcome : String → Bool) : List RunEvent :=
  let to_process := build_to_process s added changed now
  let itemEvents :=
    if to_process.length = 0 then []
    else to_process.map fun p => RunEvent.processed_item p.1 (outcome p.1)
  RunEvent.handled_removed ::
    (itemEvents ++
      [RunEvent.saved_sitemap, RunEvent.uploaded_logs, RunEvent.suspended])

/-! ### Helper lemmas about the dict operations -/

theorem mem_dictKeys {α : Type} (m : List (String × α)) (k : String) :
    k ∈ dictKeys m ↔ ∃ v, (k, v) ∈ m := by
  constructor
  · intro h
    rcases List.mem_map.mp h with ⟨⟨a, b⟩, hm, he⟩
    exact ⟨b, by simpa [← he] using hm⟩
  · rintro ⟨v, hv⟩
    exact List.mem_map.mpr ⟨(k, v), hv, rfl⟩

theorem dictGet_eq_none_iff {α : Type} (m : List (String × α)) (k : String) :
    dictGet m k = none ↔ k ∉ dictKeys m := by
  induction m with
  | nil => simp [dictGet, dictKeys]
  | cons p t ih =>
    by_cases h : p.1 = k
    · simp [dictGet, dictKeys, h]
    · simp [dictGet, dictKeys, h, ih, Ne.symm h]

theorem dictGet_mem {α : Type} {m : List (String × α)} {k : String} {v : α}
    (h : dictGet m k = some v) : (k, v) ∈ m := by
  induction m with
  | nil => simp [dictGet] at h
  | cons p t ih =>
    by_cases hk : p.1 = k
    · simp [dictGet, hk] at h
      refine List.mem_cons.mpr (Or.inl ?_)
      cases p
      simp_all
    · simp [dictGet, hk] at h
      exact List.mem_cons_of_mem _ (ih h)

theorem mem_dictGet {α : Type} {m : List (String × α)} {k : String} {v : α}
    (hnd : (dictKeys m).Nodup) (h : (k, v) ∈ m) : dictGet m k = some v := by
  induction m with
  | nil => simp at h
  | cons p t ih =>
    have h0 : dictKeys (p :: t) = p.1 :: dictKeys t := rfl
    rw [h0] at hnd
    rcases List.nodup_cons.mp hnd with ⟨hp, ht⟩
    rcases List.mem_cons.mp h with h1 | h1
    · simp [dictGet, ← h1]
    · have hk : p.1 ≠ k := by
        intro e
        exact hp (e ▸ List.mem_map_of_mem Prod.fst h1)
      simp [dictGet, hk, ih ht h1]

theorem mem_keys_filter {α : Type} (P : String × α → Bool)
    (m : List (String × α)) (k : String) :
    k ∈ dictKeys (m.filter P) ↔ ∃ v, (k, v) ∈ m ∧ P (k, v) = true := by
  constructor
  · intro h
    rcases (mem_dictKeys _ _).mp h with ⟨v, hv⟩
    rcases List.mem_filter.mp hv with ⟨hm, hP⟩
    exact ⟨v, hm, hP⟩
  · rintro ⟨v, hm, hP⟩
    exact (mem_dictKeys _ _).mpr ⟨v, List.mem_filter.mpr ⟨hm, hP⟩⟩

theorem dictGet_insert_self {α : Type} (m : List (String × α)) (k : String)
    (v : α) : dictGet (dictInsert m k v) k = some v := by
  simp [dictInsert, dictGet]

theorem dictGet_erase_self {α : Type} (m : List (String × α)) (k : String) :
    dictGet (dictErase m k) k = none := by
  induction m with
  | nil => simp [dictErase, dictGet]
  | cons p t ih =>
    by_cases h : p.1 = k
    · simpa [dictErase, h] using ih
    · simpa [dictErase, dictGet, h] using ih

theorem not_mem_filter_bne (l : List String) (x : String) :
    x ∉ l.filter fun q => q != x := by
  intro h
  rcases List.mem_filter.mp h with ⟨_, hb⟩
  simp at hb

/-! ### Characterizations of the three diff components -/

theorem mem_keys_added_iff (old_pdfs new_pdfs : Manifest) (k : String) :
    k ∈ dictKeys (compare_sitemaps old_pdfs new_pdfs).1 ↔
      k ∈ dictKeys new_pdfs ∧ dictGet old_pdfs k = none := by
  show k ∈ dictKeys
      (new_pdfs.filter fun p => (dictGet old_pdfs p.1).isNone) ↔ _
  constructor
  · intro h
    rcases (mem_keys_filter _ _ _).mp h with ⟨v, hm, hP⟩
    exact ⟨(mem_dictKeys _ _).mpr ⟨v, hm⟩, by simpa using hP⟩
  · rintro ⟨h1, h2⟩
    rcases (mem_dictKeys _ _).mp h1 with ⟨v, hv⟩
    exact (mem_keys_filter _ _ _).mpr ⟨v, hv, by simp [h2]⟩

theorem mem_keys_removed_iff (old_pdfs new_pdfs : Manifest) (k : String) :
    k ∈ dictKeys (compare_sitemaps old_pdfs new_pdfs).2.2 ↔
      k ∈ dictKeys old_pdfs ∧ dictGet new_pdfs k = none := by
  show k ∈ dictKeys
      (old_pdfs.filter fun p => (dictGet new_pdfs p.1).isNone) ↔ _
  constructor
  · intro h
    rcases (mem_keys_filter _ _ _).mp h with ⟨v, hm, hP⟩
    exact ⟨(mem_dictKeys _ _).mpr ⟨v, hm⟩, by simpa using hP⟩
  · rintro ⟨h1, h2⟩
    rcases (mem_dictKeys _ _).mp h1 with ⟨v, hv⟩
    exact (mem_keys_filter _ _ _).mpr ⟨v, hv, by simp [h2]⟩

theorem mem_keys_changed_iff (old_pdfs new_pdfs : Manifest) (k : String) :
    k ∈ dictKeys (compare_sitemaps old_pdfs new_pdfs).2.1 ↔
      ∃ v d, (k, v) ∈ new_pdfs ∧ dictGet old_pdfs k = some d ∧ d ≠ v := by
  show k ∈ dictKeys (new_pdfs.filter fun p =>
      match dictGet old_pdfs p.1 with
      | some d => decide (d ≠ p.2)
      | none => false) ↔ _
  rw [mem_keys_filter]
  constructor
  · rintro ⟨v, hm, hP⟩
    cases hg : dictGet old_pdfs k with
    | none => rw [hg] at hP; simp at hP
    | some d =>
      rw [hg] at hP
      exact ⟨v, d, hm, rfl, by simpa using hP⟩
  · rintro ⟨v, d, hm, hg, hne⟩
    exact ⟨v, hm, by simp [hg, hne]⟩

/-! ### Claim C4 -/

/-- C4: for any two manifests, added, changed and removed have pairwise
disjoint key sets; added is exactly the locators of the new manifest
absent from the old; removed is exactly the locators of the old manifest
absent from the new; a locator present in both manifests is in changed
exactly when the two revision strings differ (exact string inequality);
and every entry of the new manifest whose locator is in neither added
nor changed has the identical revision string in the old manifest. The
Nodup hypothesis records that Python dict keys are unique. -/
theorem compare_sitemaps_spec (old_pdfs new_pdfs : Manifest)
    (hnew : (dictKeys new_pdfs).Nodup) :
    (∀ k, k ∈ dictKeys (compare_sitemaps old_pdfs new_pdfs).1 →
        k ∉ dictKeys (compare_sitemaps old_pdfs new_pdfs).2.1) ∧
    (∀ k, k ∈ dictKeys (compare_sitemaps old_pdfs new_pdfs).1 →
        k ∉ dictKeys (compare_sitemaps old_pdfs new_pdfs).2.2) ∧
    (∀ k, k ∈ dictKeys (compare_sitemaps old_pdfs new_pdfs).2.1 →
        k ∉ dictKeys (compare_sitemaps old_pdfs new_pdfs).2.2) ∧
    (∀ k, k ∈ dictKeys (compare_sitemaps old_pdfs new_pdfs).1 ↔
        k ∈ dictKeys new_pdfs ∧ dictGet old_pdfs k = none) ∧
    (∀ k, k ∈ dictKeys (compare_sitemaps old_pdfs new_pdfs).2.2 ↔
        k ∈ dictKeys old_pdfs ∧ dictGet new_pdfs k = none) ∧
    (∀ k rn ro, dictGet new_pdfs k = some rn →
        dictGet old_pdfs k = some ro →
        (k ∈ dictKeys (compare_sitemaps old_pdfs new_pdfs).2.1 ↔ ro ≠ rn)) ∧
    (∀ p : String × String, p ∈ new_pdfs →
        p.1 ∉ dictKeys (compare_sitemaps old_pdfs new_pdfs).1 →
        p.1 ∉ dictKeys (compare_sitemaps old_pdfs new_pdfs).2.1 →
        dictGet old_pdfs p.1 = some p.2) := by
  refine ⟨?_, ?_, ?_, ?_, ?_, ?_, ?_⟩
  · intro k ha hc
    rcases (mem_keys_added_iff _ _ _).mp ha with ⟨_, hnone⟩
    rcases (mem_keys_changed_iff _ _ _).mp hc with ⟨v, d, _, hsome, _⟩
    rw [hnone] at hsome
    exact Option.noConfusion hsome
  · intro k ha hr
    rcases (mem_keys_added_iff _ _ _).mp ha with ⟨hk, _⟩
    rcases (mem_keys_removed_iff _ _ _).mp hr with ⟨_, hnone⟩
    exact (dictGet_eq_none_iff _ _).mp hnone hk
  · intro k hc hr
    rcases (mem_keys_changed_iff _ _ _).mp hc with ⟨v, d, hm, _, _⟩
    rcases (mem_keys_removed_iff _ _ _).mp hr with ⟨_, hnone⟩
    exact (dictGet_eq_none_iff _ _).mp hnone ((mem_dictKeys _ _).mpr ⟨v, hm⟩)
  · exact mem_keys_added_iff old_pdfs new_pdfs
  · exact mem_keys_removed_iff old_pdfs new_pdfs
  · intro k rn ro hgn hgo
    constructor
    · intro hc
      rcases (mem_keys_changed_iff _ _ _).mp hc with ⟨v, d, hm, hsome, hne⟩
      have hv : dictGet new_pdfs k = some v := mem_dictGet hnew hm
      rw [hgn] at hv
      rw [hgo] at hsome
      cases hv
      cases hsome
      exact hne
    · intro hne
      exact (mem_keys_changed_iff _ _ _).mpr ⟨rn, ro, dictGet_mem hgn, hgo, hne⟩
  · intro p hp hna hnc
    have hp2 : (p.1, p.2) ∈ new_pdfs := by simpa using hp
    cases hg : dictGet old_pdfs p.1 with
    | none =>
      exact absurd ((mem_keys_added_iff _ _ _).mpr
        ⟨(mem_dictKeys _ _).mpr ⟨p.2, hp2⟩, hg⟩) hna
    | some d =>
      by_cases hd : d = p.2
      · rw [hd]
      · exact absurd ((mem_keys_changed_iff _ _ _).mpr
          ⟨p.2, d, hp2, hg, hd⟩) hnc

theorem compare_sitemaps_spec_witness :
    "b" ∈ dictKeys
      (compare_sitemaps [("a", "1"), ("c", "3")] [("a", "2"), ("b", "9")]).1 ∧
    "a" ∈ dictKeys
      (compare_sitemaps [("a", "1"), ("c", "3")] [("a", "2"), ("b", "9")]).2.1 ∧
    "c" ∈ dictKeys
      (compare_sitemaps [("a", "1"), ("c", "3")] [("a", "2"), ("b", "9")]).2.2 := by
  have h := compare_sitemaps_spec [("a", "1"), ("c", "3")]
    [("a", "2"), ("b", "9")] (by decide)
  refine ⟨(h.2.2.2.1 "b").mpr (by decide), ?_, (h.2.2.2.2.1 "c").mpr (by decide)⟩
  exact (h.2.2.2.2.2.1 "a" "2" "1" (by decide) (by decide)).mpr (by decide)

/-! ### Claim C2 -/

/-- C2 counterexample: a Failed record with retry_count = 3 =
max_retries whose cooldown has elapsed long ago (failed_at = 0, now =
1000000 seconds, far past 7 days = 604800 seconds) is still refused:
should_retry_failed_pdf returns false, where the claim requires true. -/
theorem retry_at_cap_refused_even_after_cooldown :
    should_retry_failed_pdf
      [("http://x/doc.pdf", ⟨"boom", .valid 0, 3⟩)]
      "http://x/doc.pdf" 1000000 default_max_retries
      default_retry_after_days = false := by decide

/-- C2 (amended): once retry_count reaches max_retries,
should_retry_failed_pdf returns false unconditionally; the cooldown is
never consulted on that branch, so the record is refused regardless of
how much time has passed since failed_at. -/
theorem retry_refused_at_cap (failed : List (String × FailedRec))
    (url : String) (now : Int) (max_retries : Nat) (retry_after_days : Int)
    (r : FailedRec) (hget : dictGet failed url = some r)
    (hcap : r.retry_count ≥ max_retries) :
    should_retry_failed_pdf failed url now max_retries retry_after_days
      = false := by
  simp [should_retry_failed_pdf, hget, hcap]

theorem retry_refused_at_cap_witness :
    should_retry_failed_pdf [("u", ⟨"e", .valid 0, 5⟩)] "u" 999999999 3 7
      = false :=
  retry_refused_at_cap [("u", ⟨"e", .valid 0, 5⟩)] "u" 999999999 3 7
    ⟨"e", .valid 0, 5⟩ (by decide) (by decide)

/-! ### Claim C3 -/

/-- C3 counterexample: a Failed record with retry_count = 1 <
max_retries and cooldown not elapsed (failed_at = 0, now = 0) is not
attempted: should_retry_failed_pdf returns false, where the claim
requires true (the function only reaches the trailing return False on
this path). -/
theorem retry_under_cap_within_cooldown_refused :
    should_retry_failed_pdf
      [("http://x/doc.pdf", ⟨"boom", .valid 0, 1⟩)]
      "http://x/doc.pdf" 0 default_max_retries default_retry_after_days
      = false := by decide

/-- C3 (amended): for a Failed record with retry_count < max_retries and
a parseable failed_at, should_retry_failed_pdf returns true exactly when
the cooldown has elapsed (now - failed_at > retry_after_days in
seconds); in particular, while the cooldown has not elapsed the item is
refused, even below the retry cap. -/
theorem retry_under_cap_iff_cooldown (failed : List (String × FailedRec))
    (url : String) (now : Int) (max_retries : Nat) (retry_after_days : Int)
    (r : FailedRec) (t : Int) (hget : dictGet failed url = some r)
    (hcap : r.retry_count < max_retries) (hts : r.failed_at = .valid t) :
    should_retry_failed_pdf failed url now max_retries retry_after_days
      = decide (now - t > retry_after_days * secondsPerDay) := by
  simp [should_retry_failed_pdf, hget, hts, Nat.not_le.mpr hcap]

theorem retry_under_cap_iff_cooldown_witness :
    should_retry_failed_pdf [("u", ⟨"e", .valid 100, 1⟩)] "u" 604901 3 7
      = decide ((604901 : Int) - 100 > 7 * secondsPerDay) :=
  retry_under_cap_iff_cooldown [("u", ⟨"e", .valid 100, 1⟩)] "u" 604901 3 7
    ⟨"e", .valid 100, 1⟩ 100 (by decide) (by decide) (by decide)

/-! ### Claim C10 -/

/-- C10: for a Failed record with retry_count < max_retries whose
failed_at field is missing (KeyError) or not a parseable ISO timestamp
(ValueError from datetime.fromisoformat), the except clause returns
True: the item is immediately retry-eligible rather than raising or
refusing. -/
theorem retry_true_on_malformed_timestamp
    (failed : List (String × FailedRec)) (url : String) (now : Int)
    (max_retries : Nat) (retry_after_days : Int) (r : FailedRec)
    (hget : dictGet failed url = some r)
    (hcap : r.retry_count < max_retries)
    (hts : r.failed_at = .missing ∨ r.failed_at = .malformed) :
    should_retry_failed_pdf failed url now max_retries retry_after_days
      = true := by
  rcases hts with h | h <;>
    simp [should_retry_failed_pdf, hget, h, Nat.not_le.mpr hcap]

theorem retry_true_on_malformed_timestamp_witness :
    should_retry_failed_pdf [("u", ⟨"e", .malformed, 1⟩)] "u" 0 3 7
      = true :=
  retry_true_on_malformed_timestamp [("u", ⟨"e", .malformed, 1⟩)] "u" 0 3 7
    ⟨"e", .malformed, 1⟩ (by decide) (by decide) (Or.inr (by decide))

/-! ### Branch analysis of process_pdf -/

theorem process_pdf_success_eq (s : Store) (fs : List String)
    (pdfPath url date : String) (now : Int) (e : ItemEnv) :
    (process_pdf s fs pdfPath url date now e).success =
      (e.memory_ok && download_returns e.download &&
        conversion_ok e.conversion_text_len && e.chatbot_ok) := by
  obtain ⟨mok, dl, conv, ftp, cb⟩ := e
  cases mok with
  | false => simp [process_pdf]
  | true =>
    cases dl with
    | httpError c => simp [process_pdf, download_pdf, download_returns]
    | timeout => simp [process_pdf, download_pdf, download_returns]
    | networkError => simp [process_pdf, download_pdf, download_returns]
    | body n =>
      by_cases hn : n < 100
      · simp [process_pdf, download_pdf, download_returns, hn]
      · cases conv with
        | none =>
          simp [process_pdf, download_pdf, download_returns, conversion_ok,
            convert_pdf_to_markdown, hn]
        | some m =>
          by_cases hm : m < 50
          · simp [process_pdf, download_pdf, download_returns, conversion_ok,
              convert_pdf_to_markdown, hn, hm]
          · cases cb <;>
              simp [process_pdf, download_pdf, download_returns,
                conversion_ok, convert_pdf_to_markdown, hn, hm]

theorem process_pdf_store_of_success (s : Store) (fs : List String)
    (pdfPath url date : String) (now : Int) (e : ItemEnv)
    (hs : (process_pdf s fs pdfPath url date now e).success = true) :
    (process_pdf s fs pdfPath url date now e).store =
      remove_from_failed (save_processed_pdf s url date now) url := by
  obtain ⟨mok, dl, conv, ftp, cb⟩ := e
  cases mok with
  | false => simp [process_pdf] at hs
  | true =>
    cases dl with
    | httpError c => simp [process_pdf, download_pdf] at hs
    | timeout => simp [process_pdf, download_pdf] at hs
    | networkError => simp [process_pdf, download_pdf] at hs
    | body n =>
      by_cases hn : n < 100
      · simp [process_pdf, download_pdf, hn] at hs
      · cases conv with
        | none =>
          simp [process_pdf, download_pdf, convert_pdf_to_markdown, hn] at hs
        | some m =>
          by_cases hm : m < 50
          · simp [process_pdf, download_pdf, convert_pdf_to_markdown,
              hn, hm] at hs
          · cases cb with
            | false =>
              simp [process_pdf, download_pdf, convert_pdf_to_markdown,
                hn, hm] at hs
            | true =>
              simp [process_pdf, download_pdf, convert_pdf_to_markdown,
                hn, hm]

theorem process_pdf_store_of_failure (s : Store) (fs : List String)
    (pdfPath url date : String) (now : Int) (e : ItemEnv)
    (hs : (process_pdf s fs pdfPath url date now e).success = false) :
    ∃ msg, (process_pdf s fs pdfPath url date now e).store =
      save_failed_pdf s url msg now := by
  obtain ⟨mok, dl, conv, ftp, cb⟩ := e
  cases mok with
  | false => exact ⟨"Memoire insuffisante", by simp [process_pdf]⟩
  | true =>
    cases dl with
    | httpError c =>
      exact ⟨"download error", by simp [process_pdf, download_pdf]⟩
    | timeout =>
      exact ⟨"download error", by simp [process_pdf, download_pdf]⟩
    | networkError =>
      exact ⟨"download error", by simp [process_pdf, download_pdf]⟩
    | body n =>
      by_cases hn : n < 100
      · exact ⟨"download error", by simp [process_pdf, download_pdf, hn]⟩
      · cases conv with
        | none =>
          exact ⟨"conversion error",
            by simp [process_pdf, download_pdf, convert_pdf_to_markdown, hn]⟩
        | some m =>
          by_cases hm : m < 50
          · exact ⟨"conversion error", by
              simp [process_pdf, download_pdf, convert_pdf_to_markdown,
                hn, hm]⟩
          · cases cb with
            | false =>
              exact ⟨"conversion error", by
                simp [process_pdf, download_pdf, convert_pdf_to_markdown,
                  hn, hm]⟩
            | true =>
              simp [process_pdf, download_pdf, convert_pdf_to_markdown,
                hn, hm] at hs

/-! ### Claim C1 -/

/-- C1 counterexample: with the mirror (FTP) upload failing and every
other step succeeding, process_pdf still returns True, records the item
as processed and leaves no Failed record: the failed mirror upload does
not make the item Failed, contrary to the claim that both publish
sub-steps must succeed. -/
theorem ftp_failure_still_marked_processed :
    (process_pdf emptyStore [] "dl/f.pdf" "http://x/f.pdf" "2024-01-01" 0
        ⟨true, .body 200, some 100, false, true⟩).success = true ∧
    (dictGet (process_pdf emptyStore [] "dl/f.pdf" "http://x/f.pdf"
        "2024-01-01" 0
        ⟨true, .body 200, some 100, false, true⟩).store.processed
      "http://x/f.pdf").isSome = true ∧
    dictGet (process_pdf emptyStore [] "dl/f.pdf" "http://x/f.pdf"
        "2024-01-01" 0
        ⟨true, .body 200, some 100, false, true⟩).store.failed
      "http://x/f.pdf" = none := by decide

/-- C1 (amended): process_pdf returns True, marks the item processed
(save_processed_pdf) and clears any Failed record exactly when the
memory check, the download, the conversion and the knowledge-base
(chatbot) upsert all succeed; the mirror (FTP) upload outcome does not
participate (its failure is only logged and the pipeline continues); on
any of the participating steps failing, the item is recorded as Failed
via save_failed_pdf. -/
theorem item_marked_processed_iff (s : Store) (fs : List String)
    (pdfPath url date : String) (now : Int) (e : ItemEnv) :
    ((process_pdf s fs pdfPath url date now e).success =
      (e.memory_ok && download_returns e.download &&
        conversion_ok e.conversion_text_len && e.chatbot_ok)) ∧
    ((process_pdf s fs pdfPath url date now e).success = true →
      (dictGet (process_pdf s fs pdfPath url date now e).store.processed
          url).isSome = true ∧
      dictGet (process_pdf s fs pdfPath url date now e).store.failed
        url = none) ∧
    ((process_pdf s fs pdfPath url date now e).success = false →
      (dictGet (process_pdf s fs pdfPath url date now e).store.failed
          url).isSome = true) := by
  refine ⟨process_pdf_success_eq s fs pdfPath url date now e, ?_, ?_⟩
  · intro hs
    rw [process_pdf_store_of_success s fs pdfPath url date now e hs]
    constructor
    · show (dictGet (dictInsert s.processed url
        { date := date, processed_at := now }) url).isSome = true
      rw [dictGet_insert_self]
      rfl
    · show dictGet (dictErase s.failed url) url = none
      exact dictGet_erase_self s.failed url
  · intro hs
    rcases process_pdf_store_of_failure s fs pdfPath url date now e hs
      with ⟨msg, hst⟩
    rw [hst]
    simp [save_failed_pdf, dictGet_insert_self]

theorem item_marked_processed_iff_witness :
    (dictGet (process_pdf emptyStore [] "p" "u" "d" 0
        ⟨true, .body 150, some 60, true, true⟩).store.processed
      "u").isSome = true := by
  have h := item_marked_processed_iff emptyStore [] "p" "u" "d" 0
    ⟨true, .body 150, some 60, true, true⟩
  exact (h.2.1 (by decide)).1

/-! ### Claim C5 -/

/-- C5 counterexample: starting from a store holding a Processed record
for url u, save_failed_pdf (mark_failed) leaves that Processed record in
place while creating a Failed record: two live records coexist for the
same locator, contrary to the claimed mutual exclusion. -/
theorem mark_failed_keeps_processed_record :
    dictGet (save_failed_pdf ⟨[("u", ⟨"2024-01-01", 0⟩)], []⟩
        "u" "boom" 5).processed "u" = some ⟨"2024-01-01", 0⟩ ∧
    (dictGet (save_failed_pdf ⟨[("u", ⟨"2024-01-01", 0⟩)], []⟩
        "u" "boom" 5).failed "u").isSome = true := by
  constructor
  · rfl
  · rfl

/-- C5 (amended): the exclusivity holds in one direction only: on the
success path the pipeline follows save_processed_pdf with
remove_from_failed, so no Failed record for the locator remains; but
save_failed_pdf (mark_failed) does not touch the processed mapping, so a
prior Processed record for the same locator survives a later failure and
the two records coexist. -/
theorem store_records_after_outcome :
    (∀ (s : Store) (fs : List String) (pdfPath url date : String)
        (now : Int) (e : ItemEnv),
      (process_pdf s fs pdfPath url date now e).success = true →
      dictGet (process_pdf s fs pdfPath url date now e).store.failed
        url = none) ∧
    (∀ (s : Store) (url msg : String) (now : Int),
      (save_failed_pdf s url msg now).processed = s.processed) := by
  constructor
  · intro s fs pdfPath url date now e hs
    rw [process_pdf_store_of_success s fs pdfPath url date now e hs]
    exact dictGet_erase_self s.failed url
  · intro s url msg now
    rfl

theorem store_records_after_outcome_witness :
    dictGet (process_pdf ⟨[], [("u", ⟨"old", .valid 0, 1⟩)]⟩ [] "p" "u" "d" 7
        ⟨true, .body 150, some 60, true, true⟩).store.failed "u" = none := by
  have h := store_records_after_outcome
  exact h.1 ⟨[], [("u", ⟨"old", .valid 0, 1⟩)]⟩ [] "p" "u" "d" 7
    ⟨true, .body 150, some 60, true, true⟩ (by decide)

/-! ### Claim C6 -/

/-- C6 counterexample: a 200 download whose body is below the 100-byte
floor writes the scratch file to disk, then raises inside download_pdf;
in process_pdf the variable pdf_path is still None, so the finally block
does not delete anything and the scratch file survives the pipeline,
contrary to the claimed removal on every exit path. -/
theorem scratch_file_leaks_on_too_small_body :
    (process_pdf emptyStore [] "dl/f.pdf" "http://x/f.pdf" "d" 0
        ⟨true, .body 50, some 100, true, true⟩).fs = ["dl/f.pdf"] := by
  decide

/-- C6 (amended): the scratch file is removed before process_pdf returns
on every exit path on which download_pdf returned the path (success,
conversion failure, publish failure); when download_pdf itself raises
after streaming the body (the too-small case), the written scratch file
is not cleaned up. -/
theorem scratch_removed_when_download_returned (s : Store)
    (fs : List String) (pdfPath url date : String) (now : Int) (n : Nat)
    (len : Option Nat) (ftp cb : Bool) (hn : 100 ≤ n) :
    pdfPath ∉ (process_pdf s fs pdfPath url date now
      ⟨true, .body n, len, ftp, cb⟩).fs := by
  have hn2 : ¬ n < 100 := Nat.not_lt.mpr hn
  cases len with
  | none =>
    simp only [process_pdf, download_pdf, convert_pdf_to_markdown]
    rw [if_neg hn2]
    exact not_mem_filter_bne (pdfPath :: fs) pdfPath
  | some m =>
    by_cases hm : m < 50
    · simp only [process_pdf, download_pdf, convert_pdf_to_markdown]
      rw [if_neg hn2, if_pos hm]
      exact not_mem_filter_bne (pdfPath :: fs) pdfPath
    · cases cb with
      | false =>
        simp only [process_pdf, download_pdf, convert_pdf_to_markdown]
        rw [if_neg hn2, if_neg hm]
        exact not_mem_filter_bne (pdfPath :: fs) pdfPath
      | true =>
        simp only [process_pdf, download_pdf, convert_pdf_to_markdown]
        rw [if_neg hn2, if_neg hm]
        exact not_mem_filter_bne (pdfPath :: fs) pdfPath

theorem scratch_removed_when_download_returned_witness :
    "dl/f.pdf" ∉ (process_pdf emptyStore [] "dl/f.pdf" "u" "d" 0
      ⟨true, .body 200, some 60, true, true⟩).fs :=
  scratch_removed_when_download_returned emptyStore [] "dl/f.pdf" "u" "d" 0
    200 (some 60) true true (by decide)

/-! ### Claim C7 -/

/-- C7: once a run reaches the item-processing phase of main, the new
sitemap snapshot is saved (save_sitemap) unconditionally: the saved
event is on the trace for every store, every added/changed diff and
every assignment of per-item outcomes, so per-item failures never
prevent the snapshot from advancing. -/
theorem sitemap_always_saved (s : Store) (added changed : Manifest)
    (now : Int) (outcome : String → Bool) :
    RunEvent.saved_sitemap ∈ main_after_diff s added changed now outcome := by
  unfold main_after_diff
  apply List.mem_cons_of_mem
  apply List.mem_append_right
  simp

/-! ### Claim C8 -/

/-- C8 counterexample: an unreadable backing file (open raising an
OSError, for example a permission error) is not covered by the except
json.JSONDecodeError clause of load_processed_pdfs / load_failed_pdfs,
so the load does not return an empty mapping: the exception escapes,
contrary to the claim that every unreadable-or-corrupt failure mode is
tolerated. -/
theorem load_unreadable_escapes :
    load_processed_pdfs .unreadable = .error "OSError" ∧
    load_failed_pdfs .unreadable = .error "OSError" :=
  ⟨rfl, rfl⟩

/-- C8 (amended): an absent backing file or one whose contents fail JSON
decoding (json.JSONDecodeError) loads as the empty mapping with no
escaping exception, for both the processed-items and the failed-items
files; an unreadable file (OSError at open) is the failure mode that
escapes the load. -/
theorem load_tolerates_absent_and_corrupt :
    load_processed_pdfs .absent = .ok [] ∧
    load_processed_pdfs .corruptJson = .ok [] ∧
    load_failed_pdfs .absent = .ok [] ∧
    load_failed_pdfs .corruptJson = .ok [] :=
  ⟨rfl, rfl, rfl, rfl⟩

/-! ### Claim C9 -/

/-- C9 counterexample: a removed locator with every downstream artifact
already absent, but with get_sources returning an empty list: the
Python truthiness test if sources: is false on an empty list, step 1 is
skipped entirely, and chatbot_source is recorded False even though no
knowledge-base source exists: not all four sub-steps are recorded
successful, contrary to the claim. -/
theorem cleanup_empty_listing_not_all_success :
    (cleanup_removed_pdf
        ⟨some [], true, false, true, ⟨true, [], true⟩⟩
        emptyStore "http://x/f.pdf" "f.pdf" "f.md").1 =
      ⟨false, true, true, true⟩ := by decide

/-- C9 (amended): when get_sources returns a non-empty listing in which
no source matches the locator, the local markdown file is absent, and
the FTP server is reachable with the file absent from its listing, the
saga records all four sub-steps successful (absent-is-success),
whatever the state store holds; moreover the saga never aborts early:
the tracking sub-step is recorded True for every environment and store.
When the listing is empty or unavailable, the chatbot sub-step is
instead recorded False despite the source being absent. -/
theorem cleanup_absent_artifacts_all_success (env : SagaEnv) (s : Store)
    (url clean_filename md_filename : String) (ss : List Source)
    (hs : env.sources = some ss) (hne : ss ≠ [])
    (hfind : find_source_by_keyword ss clean_filename = none)
    (hlocal : env.local_md_exists = false)
    (hftp : env.ftp.reachable = true)
    (habsent : env.ftp.files.contains md_filename = false) :
    (cleanup_removed_pdf env s url clean_filename md_filename).1 =
      ⟨true, true, true, true⟩ ∧
    (∀ (env2 : SagaEnv) (s2 : Store),
      (cleanup_removed_pdf env2 s2 url clean_filename md_filename).1.tracking
        = true) := by
  constructor
  · have hne2 : ss.isEmpty = false := by
      cases ss with
      | nil => exact absurd rfl hne
      | cons a t => rfl
    simp [cleanup_removed_pdf, hs, hne2, hfind, hlocal, delete_from_ftp,
      hftp, habsent]
    exact Or.inl (by simpa using habsent)
  · intro env2 s2
    rfl

theorem cleanup_absent_artifacts_all_success_witness :
    (cleanup_removed_pdf
        ⟨some [⟨"id1", "http://site/other.pdf"⟩], true, false, true,
          ⟨true, ["keep.md"], true⟩⟩
        emptyStore "http://x/doc.pdf" "doc.pdf" "doc.md").1 =
      ⟨true, true, true, true⟩ := by
  have h := cleanup_absent_artifacts_all_success
    ⟨some [⟨"id1", "http://site/other.pdf"⟩], true, false, true,
      ⟨true, ["keep.md"], true⟩⟩
    emptyStore "http://x/doc.pdf" "doc.pdf" "doc.md"
    [⟨"id1", "http://site/other.pdf"⟩]
    (by decide) (by decide) (by decide) (by decide) (by decide) (by decide)
  exact h.1

end Converter
